import Mathlib

/-!
Verification of the `set_env` crate (src/lib.rs): shell-profile resolution
and environment-variable persistence.

Text is modelled as `List Char` (obtained from Lean string literals via
`String.data`), so that every operation is a structural recursion the kernel
can evaluate.  File-system paths are modelled as lists of components
(`PathBuf::push` of a component = appending it; `.parent()` = `dropLast`).
The file system itself is modelled by two oracles: an existence predicate
`ex : Path → Bool` (`Path::exists`) and a directory-creation success
predicate `cc : Path → Bool` (`fs::create_dir_all(..).is_ok()`).

The Windows side (`do_prerequisites`, `inject`) is modelled over the file
content as a value: the bundled template script (not part of src/) and the
build version `CARGO_PKG_VERSION` are parameters.
-/

namespace SetEnv

/-- Text as a list of characters. -/
abbrev Str := List Char

/-- A file-system path as a list of components. -/
abbrev Path := List Str

/-- Rust `str::contains` (substring containment; the empty pattern is
always contained). -/
def containsSub : Str → Str → Bool
  | [], pat => pat.isEmpty
  | c :: rest, pat => List.isPrefixOf pat (c :: rest) || containsSub rest pat

/-- Split on a single separator character, keeping empty pieces
(Rust `str::split(sep: char)`). -/
def splitChar (sep : Char) : Str → List Str
  | [] => [[]]
  | c :: rest =>
    if c = sep then [] :: splitChar sep rest
    else
      match splitChar sep rest with
      | [] => [[c]]
      | p :: ps => (c :: p) :: ps

/-- Split on the two-character sequence CR LF, keeping empty pieces
(Rust `str::split("\r\n")`, leftmost non-overlapping matches). -/
def splitCRLF : Str → List Str
  | [] => [[]]
  | '\r' :: '\n' :: rest => [] :: splitCRLF rest
  | c :: rest =>
    match splitCRLF rest with
    | [] => [[c]]
    | p :: ps => (c :: p) :: ps

/-- Join pieces with CR LF (Rust `Vec::join("\r\n")`). -/
def joinCRLF : List Str → Str
  | [] => []
  | [p] => p
  | p :: q :: ps => p ++ '\r' :: '\n' :: joinCRLF (q :: ps)

/-- Drop one trailing carriage return, if present. -/
def stripCR (l : Str) : Str :=
  if l.getLast? = some '\r' then l.dropLast else l

/-- Rust `str::lines`: split at LF, with the final line ending optional,
and a trailing CR removed from each line. -/
def rustLines (s : Str) : List Str :=
  let parts := splitChar '\n' s
  let parts := if parts.getLast? = some [] then parts.dropLast else parts
  parts.map stripCR

/-- Join pieces with a separator (used to express Rust `str::replace`). -/
def joinWith (sep : Str) : List Str → Str
  | [] => []
  | [p] => p
  | p :: q :: ps => p ++ sep ++ joinWith sep (q :: ps)

/-- Fuel-driven splitter on an arbitrary non-empty pattern; the fuel is the
length of the text, which bounds the number of pieces, so with fuel
`s.length` this is Rust `str::split(pat)`. -/
def splitFuel (pat : Str) : Nat → Str → Str → List Str
  | _, [], acc => [acc]
  | 0, s, acc => [acc ++ s]
  | fuel + 1, c :: rest, acc =>
    if List.isPrefixOf pat (c :: rest) then
      acc :: splitFuel pat fuel (List.drop (pat.length - 1) rest) []
    else
      splitFuel pat fuel rest (acc ++ [c])

/-- Rust `str::split(pat)` for a non-empty string pattern. -/
def splitOnL (pat s : Str) : List Str := splitFuel pat s.length s []

/-- Rust `str::replace(pat, repl)`: replace every non-overlapping occurrence
of `pat` by `repl`. -/
def replaceAll (s pat repl : Str) : Str := joinWith repl (splitOnL pat s)

/-! ## Shell registry (static `SHELLS` table, src/lib.rs lines 182-212) -/

structure Shell where
  name : Str
  config_files : List Str
deriving DecidableEq, Repr

def SHELLS : List Shell := [
  ⟨"zsh".data, [".zprofile".data, ".zshrc".data, ".zlogin".data]⟩,
  ⟨"fish".data, [".config/fish/config.fish".data]⟩,
  ⟨"tcsh".data, [".tcshrc".data, ".cshrc".data, ".login".data]⟩,
  ⟨"csh".data, [".tcshrc".data, ".cshrc".data, ".login".data]⟩,
  ⟨"ksh".data, [".profile".data, ".kshrc".data]⟩,
  ⟨"bash".data, [".bash_profile".data, ".bash_login".data, ".bashrc".data]⟩]

/-! ## Profile resolver (Unix), src/lib.rs lines 214-246 -/

/-- `config_path.push(part)` for every `part` in `config_file.split('/')`;
also models `PathBuf::push` of a string that may contain separators. -/
def pushPath (home : Path) (file : Str) : Path :=
  home ++ splitChar '/' file

inductive FPResult
  | ok (p : Path)
  | errUnsupported
  | errCreateDir
  | panicIdx
deriving DecidableEq, Repr

/-- The candidate loop of `find_profile` (lines 223-242): first existing
candidate wins; a not-yet-existing candidate that contains `/` triggers one
directory-creation attempt and always ends the loop.  `none` means the loop
fell through. -/
def fpLoop (ex cc : Path → Bool) (home : Path) : List Str → Option FPResult
  | [] => none
  | c :: rest =>
    let p := pushPath home c
    if ex p then some (.ok p)
    else if containsSub c "/".data then
      if cc p.dropLast then some (.ok p) else some .errCreateDir
    else fpLoop ex cc home rest

/-- `find_profile(home)` (lines 214-246).  `shell_env` is the value of the
`SHELL` environment variable (empty when absent). -/
def find_profile (ex cc : Path → Bool) (home : Path) (shell_env : Str) : FPResult :=
  match SHELLS.find? (fun s => containsSub shell_env s.name) with
  | none => .errUnsupported
  | some s =>
    match fpLoop ex cc home s.config_files with
    | some r => r
    | none =>
      match s.config_files.head? with
      | some c0 => .ok (pushPath home c0)
      | none => .panicIdx

inductive GPResult
  | ok (p : Path)
  | errNoHome
  | panic
deriving DecidableEq, Repr

/-- The path-resolution part of `get_profile` (lines 166-180): home-lookup,
then `find_profile` with EVERY error mapped by `unwrap_or_else` to the
fallback `home/.profile`.  (The subsequent append+create open is I/O and is
modelled by the writers below; a Rust panic is not an `Err` and is not
caught by `unwrap_or_else`.) -/
def get_profile (ex cc : Path → Bool) (home? : Option Path) (shell_env : Str) : GPResult :=
  match home? with
  | none => .errNoHome
  | some home =>
    match find_profile ex cc home shell_env with
    | .ok p => .ok p
    | .panicIdx => .panic
    | _ => .ok (home ++ [".profile".data])

/-! ## Profile writers (Unix), src/lib.rs lines 116-156.
Each models the effect of `writeln!(profile, ...)` on the content of the
file opened with append+create semantics. -/

/-- `set` (lines 151-156): appends `writeln!("\nexport {}={}", var, value)`. -/
def set (var value file : Str) : Str :=
  file ++ "\nexport ".data ++ var ++ "=".data ++ value ++ "\n".data

/-- `append` (lines 116-121): appends
`writeln!("\nexport {}=\"{}:${}\"", var, value, var)`. -/
def append (var value file : Str) : Str :=
  file ++ "\nexport ".data ++ var ++ "=\"".data ++ value ++ ":$".data ++ var ++ "\"\n".data

/-- `prepend` (lines 131-136): appends
`writeln!("\nexport {}=\"${}:{}\"", var, value, var)` — note the argument
order: the placeholder after the dollar sign receives `value` and the one
after the colon receives `var`. -/
def prepend (var value file : Str) : Str :=
  file ++ "\nexport ".data ++ var ++ "=\"$".data ++ value ++ ":".data ++ var ++ "\"\n".data

/-- `check_or_set` (lines 97-103) over a process environment
`env : Str → Option Str`: when the variable is present the write is skipped.
Returns the resulting file content and whether the profile file was
opened/written. -/
def check_or_set (env : Str → Option Str) (var value file : Str) : Str × Bool :=
  match env var with
  | some _ => (file, false)
  | none => (set var value file, true)

/-! ## Windows injector, src/lib.rs lines 31-91.
`do_prerequisites` and `inject` are modelled over the managed script's
content (`Option Str`: `none` = file absent).  The bundled template (already
version-substituted, line 39) and `CARGO_PKG_VERSION` are parameters. -/

/-- The version-comment marker line (src/lib.rs line 48). -/
def verMark : Str := "# ----------------------------------VER".data

/-- The terminator sentinel line (src/lib.rs line 86). -/
def endMark : Str := "# ----------------------------------SET_ENV_DEFS_END".data

/-- Rust `Iterator::position` on a list-backed iterator: returns the index
of the first match and the elements REMAINING in the iterator, which has
been consumed up to and including the matching element. -/
def iterPosition (p : α → Bool) : List α → Option Nat × List α
  | [] => (none, [])
  | a :: as =>
    if p a then (some 0, as)
    else
      match iterPosition p as with
      | (some n, rest) => (some (n + 1), rest)
      | (none, rest) => (none, rest)

/-- Rust `Iterator::nth n` on a list-backed iterator: skips `n` elements
and yields the next one, if any. -/
def iterNth (n : Nat) (l : List α) : Option α :=
  match List.drop n l with
  | [] => none
  | a :: _ => some a

inductive PrereqResult
  | panic
  | content (c : Str)
deriving DecidableEq, Repr

/-- `do_prerequisites` (lines 31-69), from the point where the containing
directory exists, acting on the managed script's content.  An absent file
gets the template.  For an existing file the code searches the line iterator
for the version-marker line with `position` (which consumes it), then reads
the alleged version line with `lines.nth(pos).unwrap()` on the
already-advanced iterator, strips every occurrence of the marker from it,
and rewrites the whole file with the template unless the result equals the
build version. -/
def do_prerequisites (pkgVersion template : Str) : Option Str → PrereqResult
  | none => .content template
  | some c =>
    match iterPosition (fun it => List.isPrefixOf verMark it) (rustLines c) with
    | (some pos, rest) =>
      match iterNth pos rest with
      | none => .panic
      | some line =>
        if replaceAll line verMark [] ≠ pkgVersion then .content template
        else .content c
    | (none, _) => .content template

/-- `Vec::insert(idx, a)`. -/
def insertAt (n : Nat) (a : α) (l : List α) : List α :=
  l.take n ++ a :: l.drop n

/-- `inject` (lines 71-91): run `do_prerequisites`, read the file, split on
CR LF, insert the command line immediately before the terminator sentinel
(panicking — `none` — if it is absent), rejoin and write back. -/
def inject (pkgVersion template cmd : Str) (file? : Option Str) : Option Str :=
  match do_prerequisites pkgVersion template file? with
  | .panic => none
  | .content c =>
    let parts := splitCRLF c
    match parts.findIdx? (fun it => it = endMark) with
    | none => none
    | some idx => some (joinCRLF (insertAt idx cmd parts))

/-- Windows `set` (lines 160-164): injects `setenv_set <var> <value>`. -/
def set_win (pkgVersion template var value : Str) (file? : Option Str) : Option Str :=
  inject pkgVersion template ("setenv_set ".data ++ var ++ " ".data ++ value) file?

/-! ## Concrete fixtures for evaluating the model -/

/-- A build version. -/
def ver0 : Str := "1.0.0".data

/-- A rendered template: version line, one body line, terminator. -/
def tmpl0 : Str := verMark ++ "1.0.0\r\nbody\r\n".data ++ endMark ++ "\r\n".data

/-- A managed script whose version line matches `ver0` and which carries one
previously injected command before the terminator. -/
def script0 : Str :=
  verMark ++ "1.0.0\r\nbody\r\nsetenv_set OLD 1\r\n".data ++ endMark ++ "\r\n".data

/-- A managed script whose version line (the first line, found by the
marker scan) carries the outdated version 0.9.0; its second line also
starts with the marker and carries 1.0.0. -/
def script1 : Str :=
  verMark ++ "0.9.0\r\n".data ++ verMark ++ "1.0.0\r\n".data ++ endMark ++ "\r\n".data

/-- `script0` after the code's `set`: the template with the new command
inserted (the previously injected `setenv_set OLD 1` line is gone). -/
def script0_code : Str :=
  verMark ++ "1.0.0\r\nbody\r\nsetenv_set NEW 2\r\n".data ++ endMark ++ "\r\n".data

/-- `script0` with the new command inserted immediately before the
terminator and every other line unchanged (what claim C3 states). -/
def script0_claim : Str :=
  verMark ++ "1.0.0\r\nbody\r\nsetenv_set OLD 1\r\nsetenv_set NEW 2\r\n".data ++
    endMark ++ "\r\n".data

end SetEnv

open SetEnv

/-! ## Helper lemmas -/

/-- Every entry of the registry has a non-empty candidate list. -/
lemma shells_config_ne_nil : ∀ s ∈ SHELLS, s.config_files ≠ [] := by decide

/-- When every directory creation succeeds, the candidate loop either falls
through or returns a path. -/
lemma fpLoop_ok_of_cc (ex cc : Path → Bool) (home : Path) (cfgs : List Str)
    (h2 : ∀ p, cc p = true) :
    fpLoop ex cc home cfgs = none ∨ ∃ p, fpLoop ex cc home cfgs = some (FPResult.ok p) := by
  induction cfgs with
  | nil => exact Or.inl rfl
  | cons c rest ih =>
    by_cases hex : ex (pushPath home c)
    · exact Or.inr ⟨pushPath home c, by simp [fpLoop, hex]⟩
    · by_cases hsl : containsSub c "/".data
      · exact Or.inr ⟨pushPath home c, by simp [fpLoop, hex, hsl, h2]⟩
      · simpa [fpLoop, hex, hsl] using ih

/-- If no candidate before index `k` exists or contains a separator, and the
candidate at `k` exists, the loop returns it. -/
lemma fpLoop_first_ex (ex cc : Path → Bool) (home : Path) (cfgs : List Str) (k : Nat)
    (hns : ∀ c ∈ cfgs, containsSub c "/".data = false)
    (hk : k < cfgs.length)
    (hex : ex (pushPath home (cfgs.getD k [])) = true)
    (hbef : ∀ j, j < k → ex (pushPath home (cfgs.getD j [])) = false) :
    fpLoop ex cc home cfgs = some (FPResult.ok (pushPath home (cfgs.getD k []))) := by
  induction cfgs generalizing k with
  | nil => exact absurd hk (by simp)
  | cons c rest ih =>
    cases k with
    | zero =>
      simp only [List.getD_cons_zero] at hex ⊢
      simp [fpLoop, hex]
    | succ k =>
      have h0 : ex (pushPath home c) = false := by
        simpa using hbef 0 (Nat.succ_pos k)
      have hc : containsSub c "/".data = false := hns c (by simp)
      simp only [List.getD_cons_succ] at hex ⊢
      rw [fpLoop, if_neg (by simp [h0]), if_neg (by simp [hc])]
      exact ih k (fun d hd => hns d (List.mem_cons_of_mem c hd)) (by simpa using hk) hex
        (fun j hj => by simpa using hbef (j + 1) (by omega))

/-! ## Claims -/

/-- C1: refuted as stated; the code is the slip (compare `append`, whose
argument order matches its format).  Unix `prepend("PATH", "X")` writes the
line `export PATH="$X:PATH"` — the dollar reference names the VALUE and the
variable name follows the colon — not the claimed `export PATH="$PATH:X"`. -/
theorem C1_prepend_swaps_var_and_value :
    prepend "PATH".data "X".data [] = "\nexport PATH=\"$X:PATH\"\n".data ∧
    prepend "PATH".data "X".data [] ≠ "\nexport PATH=\"$PATH:X\"\n".data := by
  decide

/-- C2: refuted as stated; the code is the slip.  `position` consumes the
line iterator up to and past the version-marker line, so the subsequent
`nth(pos)` reads the line at overall index `2*pos+1` instead of the marker
line itself.  Hence `script0`, whose version line matches the build version
`ver0`, is overwritten with the template (not a no-op), while `script1`,
whose version line carries the outdated 0.9.0, is left unchanged. -/
theorem C2_version_check_reads_wrong_line :
    (rustLines script0).head? = some (verMark ++ ver0) ∧
    do_prerequisites ver0 tmpl0 (some script0) = .content tmpl0 ∧
    tmpl0 ≠ script0 ∧
    (rustLines script1).head? = some (verMark ++ "0.9.0".data) ∧
    do_prerequisites ver0 tmpl0 (some script1) = .content script1 := by
  decide

/-- C3: refuted as stated; root cause is the C2 slip in the prerequisite
step.  `script0` has a matching version line and contains the terminator
sentinel, yet Windows `set NEW 2` first overwrites the file with the fresh
template, so the result `script0_code` has lost the previously injected
`setenv_set OLD 1` line and is not the claimed `script0_claim` (the original
with exactly one line inserted before the terminator). -/
theorem C3_set_discards_prior_injected_lines :
    (rustLines script0).head? = some (verMark ++ ver0) ∧
    (splitCRLF script0).findIdx? (fun it => it = endMark) = some 3 ∧
    set_win ver0 tmpl0 "NEW".data "2".data (some script0) = some script0_code ∧
    script0_code ≠ script0_claim := by
  decide

/-- C4: counterexample.  `find_profile` also fails when no registry entry
matches the `SHELL` value: with an empty `SHELL` and directory creation
always succeeding it returns the unsupported-shell error, not a path. -/
theorem C4_unsupported_shell_is_error :
    find_profile (fun _ => false) (fun _ => true) ["home".data] [] = .errUnsupported ∧
    ∀ p : Path, FPResult.errUnsupported ≠ FPResult.ok p :=
  ⟨by decide, fun _ h => nomatch h⟩

/-- C4 (amended): when some registry entry matches the `SHELL` value and
every directory creation succeeds, `find_profile` returns a path. -/
theorem C4_amended_path_when_shell_matched (ex cc : Path → Bool) (home : Path) (env : Str)
    (s : Shell) (h1 : SHELLS.find? (fun t => containsSub env t.name) = some s)
    (h2 : ∀ p, cc p = true) :
    ∃ p, find_profile ex cc home env = FPResult.ok p := by
  rcases fpLoop_ok_of_cc ex cc home s.config_files h2 with hl | ⟨p, hl⟩
  · have hne := shells_config_ne_nil s (List.mem_of_find?_eq_some h1)
    cases hcf : s.config_files.head? with
    | none => exact absurd (List.head?_eq_none_iff.mp hcf) hne
    | some c0 => exact ⟨pushPath home c0, by simp only [find_profile, h1, hl, hcf]⟩
  · exact ⟨p, by simp only [find_profile, h1, hl]⟩

/-- C4 (amended), witnessed at `SHELL = "bash"` with no existing candidate
and directory creation succeeding. -/
theorem C4_amended_witness :
    ∃ p, find_profile (fun _ => false) (fun _ => true) ["u".data] "bash".data =
      FPResult.ok p :=
  C4_amended_path_when_shell_matched _ _ _ _
    ⟨"bash".data, [".bash_profile".data, ".bash_login".data, ".bashrc".data]⟩
    (by decide) (fun _ => rfl)

/-- C5: when no registry entry's name occurs in the `SHELL` value, the
resolution used by the public write operations falls back to
`home/.profile` without error. -/
theorem C5_unmatched_shell_targets_default_profile (ex cc : Path → Bool) (home : Path)
    (env : Str) (h : SHELLS.find? (fun t => containsSub env t.name) = none) :
    get_profile ex cc (some home) env = GPResult.ok (home ++ [".profile".data]) := by
  unfold get_profile find_profile
  rw [h]

/-- C5, witnessed at the empty `SHELL` value (variable absent). -/
theorem C5_witness :
    get_profile (fun _ => false) (fun _ => true) (some ["h5".data]) [] =
      GPResult.ok (["h5".data] ++ [".profile".data]) :=
  C5_unmatched_shell_targets_default_profile _ _ _ _ (by decide)

/-- C6: for every shell of the registry, if the candidate at index `k`
exists and no earlier candidate does, `find_profile` returns exactly that
candidate's full path — for any directory-creation oracle (existence alone
decides; writability is never consulted). -/
theorem C6_first_existing_candidate_wins (ex cc : Path → Bool) (home : Path) (env : Str)
    (s : Shell) (k : Nat)
    (h1 : SHELLS.find? (fun t => containsSub env t.name) = some s)
    (hk : k < s.config_files.length)
    (hex : ex (pushPath home (s.config_files.getD k [])) = true)
    (hbef : ∀ j, j < k → ex (pushPath home (s.config_files.getD j [])) = false) :
    find_profile ex cc home env = FPResult.ok (pushPath home (s.config_files.getD k [])) := by
  have hmem := List.mem_of_find?_eq_some h1
  have hns_or : (∀ c ∈ s.config_files, containsSub c "/".data = false) ∨
      s.config_files = [".config/fish/config.fish".data] := by
    fin_cases hmem
    · exact Or.inl (by decide)
    · exact Or.inr rfl
    · exact Or.inl (by decide)
    · exact Or.inl (by decide)
    · exact Or.inl (by decide)
    · exact Or.inl (by decide)
  simp only [find_profile, h1]
  rcases hns_or with hns | hfish
  · rw [fpLoop_first_ex ex cc home s.config_files k hns hk hex hbef]
  · rw [hfish] at hk hex ⊢
    have hk0 : k = 0 := by simp at hk; omega
    subst hk0
    simp only [List.getD_cons_zero] at hex ⊢
    simp [fpLoop, hex]

/-- C6, witnessed for zsh with `.zprofile` absent and `.zshrc` present. -/
theorem C6_witness :
    find_profile (fun p => decide (p = ["h6".data, ".zshrc".data])) (fun _ => false)
      ["h6".data] "zsh".data = FPResult.ok ["h6".data, ".zshrc".data] := by
  have h := C6_first_existing_candidate_wins
    (fun p => decide (p = ["h6".data, ".zshrc".data])) (fun _ => false)
    ["h6".data] "zsh".data
    ⟨"zsh".data, [".zprofile".data, ".zshrc".data, ".zlogin".data]⟩ 1
    (by decide) (by decide) (by decide)
    (fun j hj => by
      have hj0 : j = 0 := by omega
      subst hj0
      decide)
  exact h

/-- C7: when the variable is present in the process environment,
`check_or_set` succeeds without opening or writing the profile file: the
file content is unchanged and the write flag is false. -/
theorem C7_check_or_set_skips_write (env : Str → Option Str) (var value file w : Str)
    (h : env var = some w) :
    check_or_set env var value file = (file, false) := by
  unfold check_or_set
  rw [h]

/-- C7, witnessed at an environment in which `PATH` is set. -/
theorem C7_witness :
    check_or_set (fun v => if v = "PATH".data then some "x".data else none)
      "PATH".data "v".data "prior".data = ("prior".data, false) :=
  C7_check_or_set_skips_write _ _ _ _ "x".data (by decide)

/-- C8: counterexample.  Two identical `set` calls on a fresh file do
produce both identical lines verbatim, in call order, each newline-
terminated — but each write also emits a leading newline, so the file is
not just the two lines: an empty line precedes each of them. -/
theorem C8_leading_blank_line_before_each_write :
    set "DUMMY".data "1".data (set "DUMMY".data "1".data []) =
      "\nexport DUMMY=1\n\nexport DUMMY=1\n".data ∧
    set "DUMMY".data "1".data (set "DUMMY".data "1".data []) ≠
      "export DUMMY=1\nexport DUMMY=1\n".data := by
  decide

/-- C8 (amended): each call appends exactly one chunk — a leading newline,
the assignment line, a terminating newline — and never truncates: prior
content survives as a prefix; two identical calls on a fresh file yield the
two identical chunks in call order, with no deduplication. -/
theorem C8_amended_append_only_with_leading_newline (var value : Str) :
    set var value (set var value []) =
      "\nexport ".data ++ var ++ "=".data ++ value ++ "\n".data ++
        ("\nexport ".data ++ var ++ "=".data ++ value ++ "\n".data) ∧
    ∀ file, set var value file =
      file ++ ("\nexport ".data ++ var ++ "=".data ++ value ++ "\n".data) := by
  constructor
  · simp [SetEnv.set]
  · intro file
    simp [SetEnv.set]

/-- C9: counterexample.  A directory-creation IOError (here for fish's
`.config/fish/config.fish`) does NOT surface to the caller: `get_profile`
swallows it via `unwrap_or_else` and silently falls back to
`home/.profile`. -/
theorem C9_createdir_error_swallowed :
    find_profile (fun _ => false) (fun _ => false) ["h".data] "/usr/bin/fish".data =
      FPResult.errCreateDir ∧
    get_profile (fun _ => false) (fun _ => false) (some ["h".data]) "/usr/bin/fish".data =
      GPResult.ok ["h".data, ".profile".data] := by
  decide

/-- C9 (amended): every `find_profile` failure — unsupported shell AND
directory-creation failure alike — is converted by `get_profile` into the
silent `home/.profile` fallback; no resolver error reaches the caller. -/
theorem C9_amended_every_resolver_error_falls_back (ex cc : Path → Bool) (home : Path)
    (env : Str)
    (h : find_profile ex cc home env = FPResult.errUnsupported ∨
      find_profile ex cc home env = FPResult.errCreateDir) :
    get_profile ex cc (some home) env = GPResult.ok (home ++ [".profile".data]) := by
  rcases h with h | h <;> simp only [get_profile, h]

/-- C9 (amended), witnessed at the unmatched `SHELL` value `sh`. -/
theorem C9_amended_witness :
    get_profile (fun _ => false) (fun _ => false) (some ["w".data]) "sh".data =
      GPResult.ok (["w".data] ++ [".profile".data]) :=
  C9_amended_every_resolver_error_falls_back _ _ _ _ (Or.inl (by decide))

/-- C10: counterexample.  On a managed script consisting of exactly the
version-marker line, `position` finds it at index 0 but leaves the iterator
empty, so `lines.nth(pos)` is `None` and the unwrap panics: the claim that
the read never fails is false. -/
theorem C10_version_read_can_panic :
    do_prerequisites ver0 tmpl0 (some (verMark ++ "1.0.0".data)) = PrereqResult.panic := by
  decide

/-- C10 (amended): the unwrap succeeds exactly when enough lines remain:
if the marker is found at index `pos` and at least `pos + 1` further lines
follow it, the version read is `Some` and the step cannot panic. -/
theorem C10_amended_no_panic_with_enough_lines (ver tmpl c : Str) (pos : Nat)
    (rest : List Str)
    (h1 : iterPosition (fun it => List.isPrefixOf verMark it) (rustLines c) =
      (some pos, rest))
    (h2 : pos < rest.length) :
    do_prerequisites ver tmpl (some c) ≠ PrereqResult.panic := by
  obtain ⟨a, ha⟩ : ∃ a, iterNth pos rest = some a := by
    unfold iterNth
    cases hd : List.drop pos rest with
    | nil =>
      have hle := List.drop_eq_nil_iff.mp hd
      exact absurd h2 (Nat.not_lt.mpr hle)
    | cons a as => exact ⟨a, rfl⟩
  unfold do_prerequisites
  simp only [h1, ha]
  split <;> simp

/-- C10 (amended), witnessed on a three-line script whose first line is the
marker. -/
theorem C10_amended_witness :
    do_prerequisites "1.0.0".data "T".data (some (verMark ++ "1.0.0\r\nx\r\ny".data)) ≠
      PrereqResult.panic :=
  C10_amended_no_panic_with_enough_lines _ _ _ 0 ["x".data, "y".data]
    (by decide) (by decide)
